import Mathlib

/-!
Shallow embedding of the ETL pipeline scheduling core
(src/ETL_Pipeline/src/application/etl_pipeline.py).

The module-level globals of the source (SCHEDULER_RUNNING, SCHEDULED_JOBS,
the schedule library's live registrations, and the task database behind
ETLDataBaseManager) are gathered into an explicit `State` record, and each
FastAPI handler becomes a function from `State` to `State × Response`.
Collaborators whose code is not part of this application module
(ETLDataBaseManager, ETLTask.schedule, the external schedule library,
base64decode_obj) are modelled from the specification, as marked on each
such definition.
-/

namespace ETL

/-- Python exceptions raised or caught by the embedded operations.
`errString` renders the text interpolated into failure messages. -/
inductive PyErr where
| duplicateName
| notFound
| keyError
| unboundLocal
deriving DecidableEq

/-- Rendering of an exception inside an f-string failure message. -/
def errString : PyErr → String
| .duplicateName => "DuplicateNameError"
| .notFound => "NotFoundError"
| .keyError => "KeyError"
| .unboundLocal => "UnboundLocalError"

/-- A Task Entity row as persisted by the Task Store (spec section 3). -/
structure Task where
  name : String
  repeat_time_unit : String
  repeat_interval : Nat
  time_run_last_start : Option Nat
  time_run_last_end : Option Nat
  num_runs : Nat
  status : String
  config : String
deriving DecidableEq

/-- The `{status, message, data}` dictionary returned by every handler.
`read_task` assigns the retrieved raw row to `data` in the source; that row
is modelled as a one-element list here. -/
structure Response where
  status : Nat
  message : String
  data : List Task
deriving DecidableEq

/-- The mutable module state of etl_pipeline.py: the SCHEDULER_RUNNING flag,
the SCHEDULED_JOBS dictionary (Job Registry), the tick-engine registrations
held by the external schedule library (keyed by task name, following the
spec's idempotent-per-name scheduling contract), the Task Store contents,
and a counter producing fresh opaque job handles. -/
structure State where
  running : Bool
  registry : String → Option Nat
  tick : String → Option Nat
  store : List Task
  nextHandle : Nat

/-- Pointwise update of a name-keyed map. -/
def mapUpdate (m : String → Option Nat) (k : String) (v : Option Nat) :
    String → Option Nat :=
  fun x => if x = k then v else m x

/-- Modelled from the spec: row lookup of ETLDataBaseManager
(etl_db_manager.py is not part of this module); the Store is keyed by
`name` (section 4.1). -/
def db_lookup (store : List Task) (name : String) : Option Task :=
  store.find? (fun t => t.name == name)

/-- Modelled from the spec: ETLDataBaseManager.create_task — fails with
DuplicateNameError if the name already exists, otherwise inserts
(section 4.1). -/
def db_create_task (t : Task) (store : List Task) : Except PyErr (List Task) :=
  match db_lookup store t.name with
  | some _ => .error .duplicateName
  | none => .ok (store ++ [t])

/-- Modelled from the spec: the partial field update applied by
ETLDataBaseManager.update_task. Only the `status` field is exercised by the
embedded operations; pairs with other keys are carried but uninterpreted. -/
def applyValues (nv : List (String × String)) (t : Task) : Task :=
  nv.foldl (fun u kv => if kv.1 == "status" then {u with status := kv.2} else u) t

/-- Modelled from the spec: ETLDataBaseManager.update_task — partially
updates named fields of the named row, NotFoundError if absent
(section 4.1). -/
def db_update_task (name : String) (nv : List (String × String))
    (store : List Task) : Except PyErr (List Task) :=
  match db_lookup store name with
  | none => .error .notFound
  | some _ => .ok (store.map (fun t => if t.name == name then applyValues nv t else t))

/-- Modelled from the spec: ETLDataBaseManager.delete_task — removes the
row, NotFoundError if absent (section 4.1). -/
def db_delete_task (name : String) (store : List Task) :
    Except PyErr (List Task) :=
  match db_lookup store name with
  | none => .error .notFound
  | some _ => .ok (store.filter (fun t => !(t.name == name)))

/-- Modelled from the spec: ETLDataBaseManager.load_tasks with a one-field
equality filter; the source uses it with a status filter and a name filter
(section 4.1). -/
def load_tasks_by (field : Task → String) (value : String)
    (store : List Task) : List Task :=
  store.filter (fun t => field t == value)

/-- Modelled from the spec: ETLTask.schedule (etl_task.py is not part of
this module), per the schedule_task contract of section 4.3 — computes the
periodic tick-engine registration, returns an opaque handle, is idempotent
per task name (re-scheduling replaces the prior registration), and performs
no Store write. -/
def schedule_task (t : Task) (s : State) : Nat × State :=
  (s.nextHandle,
   {s with tick := mapUpdate s.tick t.name (some s.nextHandle),
           nextHandle := s.nextHandle + 1})

/-- Modelled from the spec: the external schedule library's cancel_job (the
tick engine's unregister of section 6) — removes the registration carrying
the given handle and silently ignores an unknown handle. -/
def cancel_job (h : Nat) (s : State) : State :=
  {s with tick := fun k => if s.tick k = some h then none else s.tick k}

/-- The recovery loop body shared with start_tasks: schedule every task of
the given list, discarding the returned handles exactly as the source does
(the handle of task.schedule is not kept). -/
def schedule_all (l : List Task) (s : State) : State :=
  l.foldl (fun st t => (schedule_task t st).2) s

/-- start_scheduler handler: no-op when already running; otherwise sets the
flag and runs start_tasks, whose own not-running check is vacuous at that
point (the flag was just set), leaving only the recovery loop over the
Store tasks with status scheduled. -/
def start_scheduler (s : State) : State × Response :=
  if s.running then
    (s, ⟨200, "Scheduler is already running.", []⟩)
  else
    let s1 := {s with running := true}
    (schedule_all (load_tasks_by Task.status "scheduled" s1.store) s1,
     ⟨200, "Scheduler started.", []⟩)

/-- start_tasks: ensures the scheduler is running, then re-schedules every
Store task with status scheduled; the handles are discarded. -/
def start_tasks (s : State) : State :=
  let s1 := if s.running = false then (start_scheduler s).1 else s
  schedule_all (load_tasks_by Task.status "scheduled" s1.store) s1

/-- stop_scheduler handler: clears the running flag and nothing else. -/
def stop_scheduler (s : State) : State × Response :=
  if s.running = false then
    (s, ⟨200, "Scheduler is not running.", []⟩)
  else
    ({s with running := false}, ⟨200, "Scheduler stopped.", []⟩)

/-- The try/except part of the stop_task handler: when the name has a
Registry entry, cancel its tick-engine job and set the Store status to
stopped; when it has none, fall through silently. All raises are caught. -/
def stop_task_try (name : String) (s : State) : State × Response :=
  match s.registry name with
  | some h =>
    let sc := cancel_job h s
    match db_update_task name [("status", "stopped")] sc.store with
    | .ok store2 =>
      ({sc with store := store2}, ⟨200, "Success. Task has been stopped.", []⟩)
    | .error e =>
      (sc, ⟨400, "Failure. Could not stop task " ++ name ++ " due to " ++
        errString e ++ ".", []⟩)
  | none => (s, ⟨200, "", []⟩)

/-- stop_task handler: the try/except body, then the unconditional final
line of the source that overwrites the message with the success text. -/
def stop_task (name : String) (s : State) : State × Response :=
  let r := stop_task_try name s
  (r.1, {r.2 with message := "Success. Task " ++ name ++ " has been stopped."})

/-- The try/except part of the delete_task handler: first stop_task (its
response is discarded), then the Store delete, then `del` of the Registry
entry, which raises KeyError when the entry is absent — after the Store row
was already removed. -/
def delete_task_try (name : String) (s : State) : State × Response :=
  let s1 := (stop_task name s).1
  match db_delete_task name s1.store with
  | .error e =>
    (s1, ⟨400, "Failure. Could not delete task " ++ name ++ " due to " ++
      errString e ++ ".", []⟩)
  | .ok store2 =>
    let s2 := {s1 with store := store2}
    match s2.registry name with
    | none =>
      (s2, ⟨400, "Failure. Could not delete task " ++ name ++ " due to " ++
        errString PyErr.keyError ++ ".", []⟩)
    | some _ =>
      ({s2 with registry := mapUpdate s2.registry name none},
       ⟨200, "Success. Task " ++ name ++ " deleted.", []⟩)

/-- delete_task handler: the try/except body, then the unconditional final
line of the source that overwrites the message with the success text. -/
def delete_task (name : String) (s : State) : State × Response :=
  let r := delete_task_try name s
  (r.1, {r.2 with message := "Success. Deleted task " ++ name ++ "."})

/-- create_task handler. The Base64 task string argument is represented by
the outcome of the external base64decode_obj collaborator: `.ok task` when
the string decodes, `.error ()` when decoding raises. In the except branch
after a decode failure the local `task` is unbound, so evaluating
`task.name` raises UnboundLocalError out of the handler, returned as
`.error`; after a Store DuplicateNameError, the handler calls
delete_task on the duplicate name before returning the 400 response. -/
def create_task (task_str : Except Unit Task) (s : State) :
    State × Except PyErr Response :=
  let s0 := if s.running = false then (start_scheduler s).1 else s
  match task_str with
  | .error _ => (s0, .error .unboundLocal)
  | .ok task =>
    match db_create_task task s0.store with
    | .error e =>
      let s1 := (delete_task task.name s0).1
      (s1, .ok ⟨400, "Failure. Could not create task due to " ++
        errString e ++ ".", []⟩)
    | .ok store1 =>
      let s1 := {s0 with store := store1}
      let js := schedule_task task s1
      let s2 := {js.2 with registry := mapUpdate js.2.registry task.name (some js.1)}
      (s2, .ok ⟨200, "Success. Task created and scheduled " ++ task.name ++
        ".", []⟩)

/-- read_task handler; a pure read. The source projects the requested
fields out of the returned row; the projection belongs to the modelled
Store read and is elided: `data` carries the whole row. -/
def read_task (name : String) (s : State) : Response :=
  match db_lookup s.store name with
  | some t => ⟨200, "Success. Retrieved task " ++ name ++ ".", [t]⟩
  | none => ⟨400, "Failure. Could not get task " ++ name ++ " due to " ++
      errString PyErr.notFound ++ ".", []⟩

/-- read_all_tasks handler; a pure read. The source projects a summary view
of each row; `data` carries the whole rows here. -/
def read_all_tasks (s : State) : Response :=
  ⟨200, "Success. Retrieved tasks.", s.store⟩

/-- update_task handler: pass-through to the Store update. The source
message interpolates the new values; that rendering is elided. -/
def update_task (name : String) (nv : List (String × String)) (s : State) :
    State × Response :=
  match db_update_task name nv s.store with
  | .ok store2 =>
    ({s with store := store2},
     ⟨200, "Success. Status of task " ++ name ++ " updated.", []⟩)
  | .error e =>
    (s, ⟨400, "Failure. Could not update status of task " ++ name ++
      " due to " ++ errString e ++ ".", []⟩)

/-- start_task handler: ensures the scheduler is running, loads the rows
with the given name, and re-schedules each one whose status is stopped,
discarding the handle; neither the Store status nor the Registry is
touched. The source quotes the task name in the accumulated message; the
quotes are elided. -/
def start_step (name : String) (a : State × String) (t : Task) : State × String :=
  if t.status == "stopped" then
    ((schedule_task t a.1).2, a.2 ++ "Started task " ++ name ++ ". ")
  else a

/-- start_task handler body: ensures the scheduler is running, loads the
rows with the given name, and folds `start_step` over them. -/
def start_task (name : String) (s : State) : State × Response :=
  let s0 := if s.running = false then (start_scheduler s).1 else s
  let acc := (load_tasks_by Task.name name s0.store).foldl (start_step name) (s0, "")
  (acc.1, ⟨200, acc.2, []⟩)

/-- One API-level operation of the Facade or Coordinator, with its input. -/
inductive Op where
| opCreate (inp : Except Unit Task)
| opDelete (name : String)
| opRead (name : String)
| opReadAll
| opUpdate (name : String) (nv : List (String × String))
| opStopTask (name : String)
| opStartTask (name : String)
| opStartScheduler
| opStopScheduler

/-- The state effect of one operation; the pure reads leave the state as
it is. -/
def applyOp : Op → State → State
| .opCreate inp, s => (create_task inp s).1
| .opDelete name, s => (delete_task name s).1
| .opRead _, s => s
| .opReadAll, s => s
| .opUpdate name nv, s => (update_task name nv s).1
| .opStopTask name, s => (stop_task name s).1
| .opStartTask name, s => (start_task name s).1
| .opStartScheduler, s => (start_scheduler s).1
| .opStopScheduler, s => (stop_scheduler s).1

/-- One step of the system: some operation was executed on the state. -/
def Step (s s' : State) : Prop := ∃ op, s' = applyOp op s

/-- A state as at process start: flag down, Job Registry and tick-engine
registrations empty (both in-memory), Store contents arbitrary (durable). -/
def InitState (s : State) : Prop :=
  s.running = false ∧ (∀ n, s.registry n = none) ∧ (∀ n, s.tick n = none)

/-- States reachable from some process start by Facade and Coordinator
operations. -/
def Reachable (s : State) : Prop :=
  ∃ s0, InitState s0 ∧ Relation.ReflTransGen Step s0 s

/-- The empty name-keyed map. -/
def emptyMap : String → Option Nat := fun _ => none

/-- A sample task row used to instantiate hypotheses at concrete inputs. -/
def sampleTask : Task := ⟨"t", "seconds", 1, none, none, 0, "scheduled", ""⟩

/-- A fresh-process state with an empty Store. -/
def initEmpty : State := ⟨false, emptyMap, emptyMap, [], 0⟩

/-- A second task carrying the same name as `sampleTask` but different
field values, used to attempt a duplicate creation. -/
def dupTask : Task := {sampleTask with num_runs := 5}

/-- The Registry-domain property: every name holding a Job Registry entry
is present in the Store. -/
def RegSubStore (s : State) : Prop :=
  ∀ n, (s.registry n).isSome = true → (db_lookup s.store n).isSome = true

theorem schedule_all_registry (l : List Task) (s : State) :
    (schedule_all l s).registry = s.registry := by
  induction l generalizing s with
  | nil => rfl
  | cons t l ih =>
    show (schedule_all l ((schedule_task t s).2)).registry = s.registry
    rw [ih]; rfl

theorem schedule_all_store (l : List Task) (s : State) :
    (schedule_all l s).store = s.store := by
  induction l generalizing s with
  | nil => rfl
  | cons t l ih =>
    show (schedule_all l ((schedule_task t s).2)).store = s.store
    rw [ih]; rfl

theorem schedule_all_running (l : List Task) (s : State) :
    (schedule_all l s).running = s.running := by
  induction l generalizing s with
  | nil => rfl
  | cons t l ih =>
    show (schedule_all l ((schedule_task t s).2)).running = s.running
    rw [ih]; rfl

theorem start_scheduler_registry (s : State) :
    (start_scheduler s).1.registry = s.registry := by
  unfold start_scheduler
  split
  · rfl
  · simp [schedule_all_registry]

theorem start_scheduler_store (s : State) :
    (start_scheduler s).1.store = s.store := by
  unfold start_scheduler
  split
  · rfl
  · simp [schedule_all_store]

/-- After a Store delete of `name`, looking `name` up finds nothing. -/
theorem db_lookup_filter_self (l : List Task) (name : String) :
    db_lookup (l.filter (fun t => !(t.name == name))) name = none := by
  induction l with
  | nil => rfl
  | cons t l ih =>
    by_cases h : t.name == name
    · simp [List.filter_cons, h, ih]
    · simp only [List.filter_cons, h]
      simp [db_lookup, List.find?, h] at ih ⊢

/-- stop_task on a name with no Registry entry leaves the state untouched
and reports success. -/
theorem stop_task_not_registered (name : String) (s : State)
    (hr : s.registry name = none) :
    stop_task name s =
      (s, ⟨200, "Success. Task " ++ name ++ " has been stopped.", []⟩) := by
  unfold stop_task stop_task_try
  rw [hr]

/-- C10: the message field of the responses of stop_task and of delete_task
always reports success, because the source overwrites it after the error
handler; the second conjunct exhibits a response whose status is 400
(failure) while its message still reads as a success. -/
theorem c10_messages_always_success :
    (∀ (s : State) (name : String),
      (stop_task name s).2.message =
        "Success. Task " ++ name ++ " has been stopped." ∧
      (delete_task name s).2.message =
        "Success. Deleted task " ++ name ++ ".") ∧
    ((delete_task "t" ⟨false, emptyMap, emptyMap, [], 0⟩).2.status = 400 ∧
     (delete_task "t" ⟨false, emptyMap, emptyMap, [], 0⟩).2.message =
       "Success. Deleted task t.") := by
  exact ⟨fun s name => ⟨rfl, rfl⟩, by decide, by decide⟩

/-- C8: stopping a running Coordinator clears only the running flag: the
Job Registry, the tick-engine registrations and the Store are unchanged,
and a subsequent start() still leaves the Registry untouched (there is no
Registry rebuild). -/
theorem c8_stop_scheduler_frame (s : State) (h : s.running = true) :
    (stop_scheduler s).1.running = false ∧
    (stop_scheduler s).1.registry = s.registry ∧
    (stop_scheduler s).1.tick = s.tick ∧
    (stop_scheduler s).1.store = s.store ∧
    (start_scheduler (stop_scheduler s).1).1.registry = s.registry := by
  simp [stop_scheduler, h, start_scheduler_registry]

/-- Witness for C8 at a concrete running state. -/
theorem c8_stop_scheduler_frame_witness :
    (stop_scheduler ⟨true, emptyMap, emptyMap, [sampleTask], 0⟩).1.running = false ∧
    (stop_scheduler ⟨true, emptyMap, emptyMap, [sampleTask], 0⟩).1.registry =
      (⟨true, emptyMap, emptyMap, [sampleTask], 0⟩ : State).registry ∧
    (stop_scheduler ⟨true, emptyMap, emptyMap, [sampleTask], 0⟩).1.tick =
      (⟨true, emptyMap, emptyMap, [sampleTask], 0⟩ : State).tick ∧
    (stop_scheduler ⟨true, emptyMap, emptyMap, [sampleTask], 0⟩).1.store =
      (⟨true, emptyMap, emptyMap, [sampleTask], 0⟩ : State).store ∧
    (start_scheduler (stop_scheduler ⟨true, emptyMap, emptyMap, [sampleTask], 0⟩).1).1.registry =
      (⟨true, emptyMap, emptyMap, [sampleTask], 0⟩ : State).registry :=
  c8_stop_scheduler_frame ⟨true, emptyMap, emptyMap, [sampleTask], 0⟩ rfl

/-- C9: for a name present in the Store but absent from the Job Registry,
delete_task removes the Store row yet returns status 400: the `del` of the
missing Registry entry raises KeyError after the Store delete has already
happened. -/
theorem c9_delete_unregistered (s : State) (name : String)
    (hs : (db_lookup s.store name).isSome = true)
    (hr : s.registry name = none) :
    (delete_task name s).2.status = 400 ∧
    db_lookup (delete_task name s).1.store name = none := by
  obtain ⟨t, ht⟩ := Option.isSome_iff_exists.mp hs
  have hdel : delete_task name s =
      ({s with store := s.store.filter (fun u => !(u.name == name))},
       ⟨400, "Success. Deleted task " ++ name ++ ".", []⟩) := by
    unfold delete_task delete_task_try
    rw [stop_task_not_registered name s hr]
    simp only [db_delete_task, ht, hr]
  rw [hdel]
  exact ⟨rfl, db_lookup_filter_self s.store name⟩

/-- Witness for C9: a Store holding the sample task with no Registry
entry, as left behind by startup recovery. -/
theorem c9_delete_unregistered_witness :
    (delete_task "t" ⟨true, emptyMap, emptyMap, [sampleTask], 0⟩).2.status = 400 ∧
    db_lookup (delete_task "t" ⟨true, emptyMap, emptyMap, [sampleTask], 0⟩).1.store "t" = none :=
  c9_delete_unregistered ⟨true, emptyMap, emptyMap, [sampleTask], 0⟩ "t" (by decide) rfl

theorem db_lookup_cons_pos {t : Task} {m : String} (l : List Task)
    (h : (t.name == m) = true) : db_lookup (t :: l) m = some t := by
  simp [db_lookup, List.find?_cons, h]

theorem db_lookup_cons_neg {t : Task} {m : String} (l : List Task)
    (h : (t.name == m) = false) : db_lookup (t :: l) m = db_lookup l m := by
  simp [db_lookup, List.find?_cons, h]

/-- The partial update of the Store never changes a row's name. -/
theorem applyValues_name (nv : List (String × String)) (t : Task) :
    (applyValues nv t).name = t.name := by
  induction nv generalizing t with
  | nil => rfl
  | cons kv nv ih =>
    show (applyValues nv (if kv.1 == "status" then {t with status := kv.2} else t)).name
      = t.name
    by_cases h : kv.1 == "status"
    · simp only [h, if_pos]
      rw [ih]
    · simp only [h]
      rw [if_neg (by simp [h]), ih]

theorem db_lookup_map_upd (store : List Task) (name : String)
    (nv : List (String × String)) (m : String) :
    (db_lookup (store.map
        (fun t => if t.name == name then applyValues nv t else t)) m).isSome
      = (db_lookup store m).isSome := by
  induction store with
  | nil => rfl
  | cons t l ih =>
    have hn : (if t.name == name then applyValues nv t else t).name = t.name := by
      split
      · exact applyValues_name nv t
      · rfl
    rw [List.map_cons]
    by_cases hm : (t.name == m) = true
    · rw [db_lookup_cons_pos _ (by rw [hn]; exact hm), db_lookup_cons_pos l hm]
      rfl
    · rw [db_lookup_cons_neg _ (by rw [hn]; exact Bool.eq_false_iff.mpr hm),
        db_lookup_cons_neg l (Bool.eq_false_iff.mpr hm)]
      exact ih

theorem db_update_ok_mem {name : String} {nv : List (String × String)}
    {store st : List Task} (h : db_update_task name nv store = .ok st)
    (m : String) : (db_lookup st m).isSome = (db_lookup store m).isSome := by
  unfold db_update_task at h
  cases hl : db_lookup store name with
  | none => rw [hl] at h; exact absurd h (by simp)
  | some t =>
    rw [hl] at h
    simp only [Except.ok.injEq] at h
    rw [← h]
    exact db_lookup_map_upd store name nv m

/-- stop_task never touches the Job Registry (the source has no `del`). -/
theorem stop_task_registry (name : String) (s : State) :
    (stop_task name s).1.registry = s.registry := by
  simp only [stop_task, stop_task_try]
  split
  · split <;> rfl
  · rfl

/-- stop_task preserves which names are present in the Store. -/
theorem stop_task_store_mem (name : String) (s : State) (m : String) :
    (db_lookup (stop_task name s).1.store m).isSome
      = (db_lookup s.store m).isSome := by
  simp only [stop_task, stop_task_try]
  split
  · split
    · next st hu => exact db_update_ok_mem hu m
    · rfl
  · rfl

/-- delete_task removes the Store row whenever the name was present,
whether or not the Registry `del` then raises. -/
theorem delete_task_store_self (name : String) (s : State)
    (hs : (db_lookup s.store name).isSome = true) :
    db_lookup (delete_task name s).1.store name = none := by
  have hmem := stop_task_store_mem name s name
  rw [hs] at hmem
  obtain ⟨t, ht⟩ := Option.isSome_iff_exists.mp hmem
  simp only [delete_task, delete_task_try, db_delete_task, ht]
  split
  · exact db_lookup_filter_self _ _
  · exact db_lookup_filter_self _ _

/-- C5: a task string that fails to decode makes create_task raise out of
the Facade: the except handler evaluates `task.name` while `task` is still
unbound, so UnboundLocalError propagates instead of a failure result. -/
theorem c5_create_decode_failure_propagates (s : State) :
    (create_task (Except.error ()) s).2 = Except.error PyErr.unboundLocal := rfl

/-- C1: creating a task whose name already exists reports the
DuplicateNameError as a 400 failure, but the except handler first calls
delete_task on that name, which removes the existing task's Store row and
Registry entry instead of leaving them unmodified. -/
theorem c1_duplicate_create_deletes_existing :
    ((create_task (Except.ok sampleTask) initEmpty).1.store = [sampleTask] ∧
     (create_task (Except.ok sampleTask) initEmpty).1.registry "t" = some 0) ∧
    ((create_task (Except.ok dupTask)
        (create_task (Except.ok sampleTask) initEmpty).1).2 =
      Except.ok ⟨400, "Failure. Could not create task due to DuplicateNameError.", []⟩ ∧
     (create_task (Except.ok dupTask)
        (create_task (Except.ok sampleTask) initEmpty).1).1.store = [] ∧
     (create_task (Except.ok dupTask)
        (create_task (Except.ok sampleTask) initEmpty).1).1.registry "t" = none) := by
  exact ⟨⟨rfl, by decide⟩, rfl, by decide, by decide⟩

/-- C6: deleting an existing name removes it, so a following read_task
fails with NotFoundError; deleting a name that never existed (absent from
Store and Registry) yields a 400 failure response whose cause is the
Store's NotFoundError. -/
theorem c6_delete_then_read (s : State) (name : String) :
    ((db_lookup s.store name).isSome = true →
      read_task name (delete_task name s).1 =
        ⟨400, "Failure. Could not get task " ++ name ++ " due to " ++
          "NotFoundError" ++ ".", []⟩) ∧
    (db_lookup s.store name = none → s.registry name = none →
      (delete_task name s).2.status = 400 ∧
      db_delete_task name (stop_task name s).1.store = .error .notFound) := by
  constructor
  · intro hs
    have hgone := delete_task_store_self name s hs
    unfold read_task
    rw [hgone]
    rfl
  · intro hs hr
    have hstop := stop_task_not_registered name s hr
    have hdnf : db_delete_task name s.store = .error .notFound := by
      unfold db_delete_task
      rw [hs]
    have hdel : db_delete_task name (stop_task name s).1.store = .error .notFound := by
      rw [hstop]; exact hdnf
    refine ⟨?_, hdel⟩
    have hrun : delete_task name s =
        (s, ⟨400, "Success. Deleted task " ++ name ++ ".", []⟩) := by
      simp only [delete_task, delete_task_try]
      rw [hstop]
      dsimp only
      rw [hdnf]
    rw [hrun]

/-- Witness for C6 at concrete inputs: part one on a Store holding the
sample task, part two on an empty Store. -/
theorem c6_delete_then_read_witness :
    (read_task "t" (delete_task "t" ⟨true, emptyMap, emptyMap, [sampleTask], 0⟩).1 =
      ⟨400, "Failure. Could not get task t due to NotFoundError.", []⟩) ∧
    ((delete_task "t" initEmpty).2.status = 400 ∧
      db_delete_task "t" (stop_task "t" initEmpty).1.store = .error .notFound) :=
  ⟨(c6_delete_then_read ⟨true, emptyMap, emptyMap, [sampleTask], 0⟩ "t").1 (by decide),
   (c6_delete_then_read initEmpty "t").2 rfl rfl⟩

theorem mapUpdate_self (m : String → Option Nat) (k : String) (v : Option Nat) :
    mapUpdate m k v k = v := by
  simp [mapUpdate]

theorem mapUpdate_other (m : String → Option Nat) (k : String) (v : Option Nat)
    (x : String) (h : x ≠ k) : mapUpdate m k v x = m x := by
  simp [mapUpdate, h]

/-- stop_task never changes the running flag. -/
theorem stop_task_running (name : String) (s : State) :
    (stop_task name s).1.running = s.running := by
  simp only [stop_task, stop_task_try]
  split
  · split <;> rfl
  · rfl

/-- The new-values dictionary used by stop_task just sets the status. -/
theorem applyValues_stopped (u : Task) :
    applyValues [("status", "stopped")] u = {u with status := "stopped"} := rfl

/-- Looking up the updated name after a Store update yields the updated
row. -/
theorem db_lookup_map_upd_self {store : List Task} {name : String} {t : Task}
    (ht : db_lookup store name = some t) (nv : List (String × String)) :
    db_lookup (store.map (fun u => if u.name == name then applyValues nv u else u))
      name = some (applyValues nv t) := by
  induction store with
  | nil => simp [db_lookup] at ht
  | cons a l ih =>
    have hn : (if a.name == name then applyValues nv a else a).name = a.name := by
      split
      · exact applyValues_name nv a
      · rfl
    by_cases ha : (a.name == name) = true
    · rw [db_lookup_cons_pos l ha] at ht
      injection ht with ht
      subst ht
      rw [List.map_cons, db_lookup_cons_pos _ (by rw [hn]; exact ha)]
      simp [ha]
    · rw [db_lookup_cons_neg l (Bool.eq_false_iff.mpr ha)] at ht
      rw [List.map_cons,
        db_lookup_cons_neg _ (by rw [hn]; exact Bool.eq_false_iff.mpr ha)]
      exact ih ht

/-- Full behaviour of stop_task on a name that has a Registry entry and a
Store row: the tick-engine job is cancelled, every row of that name is set
to stopped, and the call reports success; the Registry keeps the entry. -/
theorem stop_task_registered (name : String) (s : State) (h : Nat)
    (hr : s.registry name = some h)
    (hs : (db_lookup s.store name).isSome = true) :
    stop_task name s =
      ({cancel_job h s with
          store := s.store.map
            (fun t => if t.name == name then applyValues [("status", "stopped")] t else t)},
       ⟨200, "Success. Task " ++ name ++ " has been stopped.", []⟩) := by
  obtain ⟨t, ht⟩ := Option.isSome_iff_exists.mp hs
  have hu : db_update_task name [("status", "stopped")] (cancel_job h s).store =
      .ok (s.store.map
        (fun t => if t.name == name then applyValues [("status", "stopped")] t else t)) := by
    unfold db_update_task
    rw [show db_lookup (cancel_job h s).store name = some t from ht]
    rfl
  simp only [stop_task, stop_task_try]
  split
  · next h2 heq =>
    rw [hr] at heq
    injection heq with heq
    subst heq
    split
    · next st hst =>
      rw [hu] at hst
      injection hst with hst
      subst hst
      rfl
    · next e hst =>
      rw [hu] at hst
      exact absurd hst (by simp)
  · next heq =>
    rw [hr] at heq
    exact absurd heq (by simp)

/-- C7 counterexample: a task present in the Store with status scheduled
but absent from the Job Registry (as startup recovery leaves it) is not
stopped by stop_task: both calls report success yet the status stays
scheduled, refuting the claim for arbitrary Store names. -/
theorem c7_stop_twice_counterexample :
    (stop_task "t" ⟨true, emptyMap, emptyMap, [sampleTask], 0⟩).2.status = 200 ∧
    ((db_lookup (stop_task "t" ⟨true, emptyMap, emptyMap, [sampleTask], 0⟩).1.store
        "t").map Task.status = some "scheduled") ∧
    ((db_lookup (stop_task "t"
        (stop_task "t" ⟨true, emptyMap, emptyMap, [sampleTask], 0⟩).1).1.store
        "t").map Task.status = some "scheduled") ∧
    ¬(((db_lookup (stop_task "t"
        (stop_task "t" ⟨true, emptyMap, emptyMap, [sampleTask], 0⟩).1).1.store
        "t").map Task.status) = some "stopped") := by
  exact ⟨by decide, by decide, by decide, by decide⟩

/-- C7 (amended): for every name that has a Job Registry entry and a Store
row, stop_task is idempotent: both calls leave the Store status stopped,
and both calls (the second repeats the cancel and update rather than
skipping them) report success, status 200 with the success message. -/
theorem c7_stop_twice_amended (s : State) (name : String) (h : Nat)
    (hr : s.registry name = some h)
    (hs : (db_lookup s.store name).isSome = true) :
    ((db_lookup (stop_task name s).1.store name).map Task.status = some "stopped") ∧
    ((db_lookup (stop_task name (stop_task name s).1).1.store name).map Task.status
      = some "stopped") ∧
    (stop_task name s).2.status = 200 ∧
    (stop_task name (stop_task name s).1).2.status = 200 ∧
    (stop_task name (stop_task name s).1).2.message =
      "Success. Task " ++ name ++ " has been stopped." := by
  obtain ⟨t, ht⟩ := Option.isSome_iff_exists.mp hs
  have hchar := stop_task_registered name s h hr hs
  have hlook1 : db_lookup (stop_task name s).1.store name =
      some (applyValues [("status", "stopped")] t) := by
    rw [hchar]
    exact db_lookup_map_upd_self ht _
  have hr1 : (stop_task name s).1.registry name = some h := by
    rw [stop_task_registry]; exact hr
  have hs1 : (db_lookup (stop_task name s).1.store name).isSome = true := by
    rw [hlook1]; rfl
  have hchar2 := stop_task_registered name (stop_task name s).1 h hr1 hs1
  have hlook2 : db_lookup (stop_task name (stop_task name s).1).1.store name =
      some (applyValues [("status", "stopped")] (applyValues [("status", "stopped")] t)) := by
    rw [hchar2]
    exact db_lookup_map_upd_self hlook1 _
  refine ⟨?_, ?_, ?_, ?_, ?_⟩
  · rw [hlook1]; rfl
  · rw [hlook2]; rfl
  · rw [hchar]
  · rw [hchar2]
  · rw [hchar2]

/-- Witness for C7 (amended) at a created-and-registered concrete state. -/
theorem c7_stop_twice_amended_witness :
    ((db_lookup (stop_task "t" ⟨true, mapUpdate emptyMap "t" (some 0),
        mapUpdate emptyMap "t" (some 0), [sampleTask], 1⟩).1.store "t").map Task.status
      = some "stopped") ∧
    ((db_lookup (stop_task "t" (stop_task "t" ⟨true, mapUpdate emptyMap "t" (some 0),
        mapUpdate emptyMap "t" (some 0), [sampleTask], 1⟩).1).1.store "t").map Task.status
      = some "stopped") ∧
    (stop_task "t" ⟨true, mapUpdate emptyMap "t" (some 0),
        mapUpdate emptyMap "t" (some 0), [sampleTask], 1⟩).2.status = 200 ∧
    (stop_task "t" (stop_task "t" ⟨true, mapUpdate emptyMap "t" (some 0),
        mapUpdate emptyMap "t" (some 0), [sampleTask], 1⟩).1).2.status = 200 ∧
    (stop_task "t" (stop_task "t" ⟨true, mapUpdate emptyMap "t" (some 0),
        mapUpdate emptyMap "t" (some 0), [sampleTask], 1⟩).1).2.message =
      "Success. Task t has been stopped." :=
  c7_stop_twice_amended ⟨true, mapUpdate emptyMap "t" (some 0),
    mapUpdate emptyMap "t" (some 0), [sampleTask], 1⟩ "t" 0 (by decide) (by decide)

theorem start_fold_registry (name : String) (l : List Task) (a : State × String) :
    (l.foldl (start_step name) a).1.registry = a.1.registry := by
  induction l generalizing a with
  | nil => rfl
  | cons t l ih =>
    show (l.foldl (start_step name) (start_step name a t)).1.registry = a.1.registry
    rw [ih]
    unfold start_step
    split <;> rfl

theorem start_fold_store (name : String) (l : List Task) (a : State × String) :
    (l.foldl (start_step name) a).1.store = a.1.store := by
  induction l generalizing a with
  | nil => rfl
  | cons t l ih =>
    show (l.foldl (start_step name) (start_step name a t)).1.store = a.1.store
    rw [ih]
    unfold start_step
    split <;> rfl

theorem start_fold_tick_pres (name key : String) (l : List Task) (a : State × String)
    (h : (a.1.tick key).isSome = true) :
    ((l.foldl (start_step name) a).1.tick key).isSome = true := by
  induction l generalizing a with
  | nil => exact h
  | cons t l ih =>
    show ((l.foldl (start_step name) (start_step name a t)).1.tick key).isSome = true
    apply ih
    unfold start_step
    split
    · show ((mapUpdate a.1.tick t.name (some a.1.nextHandle)) key).isSome = true
      by_cases hk : key = t.name
      · rw [hk, mapUpdate_self]; rfl
      · rw [mapUpdate_other _ _ _ _ hk]; exact h
    · exact h

theorem start_fold_tick_set (name : String) (l : List Task) (a : State × String)
    (t0 : Task) (hmem : t0 ∈ l) (hstat : t0.status = "stopped") :
    ((l.foldl (start_step name) a).1.tick t0.name).isSome = true := by
  induction l generalizing a with
  | nil => cases hmem
  | cons t l ih =>
    show ((l.foldl (start_step name) (start_step name a t)).1.tick t0.name).isSome = true
    rcases List.mem_cons.mp hmem with heq | hmem2
    · subst heq
      apply start_fold_tick_pres
      have hcond : (t0.status == "stopped") = true := by simp [hstat]
      unfold start_step
      rw [if_pos hcond]
      show ((mapUpdate a.1.tick t0.name (some a.1.nextHandle)) t0.name).isSome = true
      rw [mapUpdate_self]
      rfl
    · exact ih _ hmem2

/-- A successful Store lookup returns a member row carrying the name. -/
theorem db_lookup_props {store : List Task} {name : String} {t : Task}
    (h : db_lookup store name = some t) : t ∈ store ∧ t.name = name := by
  unfold db_lookup at h
  have hp : (t.name == name) = true := by
    have hq := List.find?_some h
    simpa using hq
  exact ⟨List.mem_of_find?_eq_some h, eq_of_beq hp⟩

/-- C4 counterexample: after create_task, stop_task, start_task on the
same name, the Store status is still stopped (not scheduled), the Registry
entry is the stale handle 0 left by create_task (the fresh handle 1 is
discarded), and only the tick engine holds the new registration. -/
theorem c4_start_after_stop_counterexample :
    ((db_lookup (start_task "t" (stop_task "t"
        (create_task (Except.ok sampleTask) initEmpty).1).1).1.store "t").map Task.status
      = some "stopped") ∧
    (start_task "t" (stop_task "t"
        (create_task (Except.ok sampleTask) initEmpty).1).1).1.registry "t" = some 0 ∧
    (start_task "t" (stop_task "t"
        (create_task (Except.ok sampleTask) initEmpty).1).1).1.tick "t" = some 1 ∧
    ¬(((db_lookup (start_task "t" (stop_task "t"
        (create_task (Except.ok sampleTask) initEmpty).1).1).1.store "t").map
          Task.status) = some "scheduled") := by
  exact ⟨by decide, by decide, by decide, by decide⟩

/-- C4 (amended): for every name with a Registry entry and a Store row,
start_task after stop_task re-registers the task with the tick engine but
leaves the Store status stopped (neither start_task nor the scheduling
writes it back) and registers no new handle in the Job Registry: the stale
entry from create_task persists unchanged. -/
theorem c4_start_after_stop_amended (s : State) (name : String) (h : Nat)
    (hrun : s.running = true)
    (hr : s.registry name = some h)
    (hs : (db_lookup s.store name).isSome = true) :
    ((db_lookup (start_task name (stop_task name s).1).1.store name).map Task.status
      = some "stopped") ∧
    (start_task name (stop_task name s).1).1.registry name = some h ∧
    ((start_task name (stop_task name s).1).1.tick name).isSome = true := by
  obtain ⟨t, ht⟩ := Option.isSome_iff_exists.mp hs
  have hchar := stop_task_registered name s h hr hs
  have hlook1 : db_lookup (stop_task name s).1.store name =
      some (applyValues [("status", "stopped")] t) := by
    rw [hchar]
    exact db_lookup_map_upd_self ht _
  have hrun1 : (stop_task name s).1.running = true := by
    rw [stop_task_running]; exact hrun
  have hif : (if (stop_task name s).1.running = false
      then (start_scheduler (stop_task name s).1).1 else (stop_task name s).1) =
      (stop_task name s).1 := by
    rw [hrun1]
    rfl
  have hst : (start_task name (stop_task name s).1).1 =
      ((load_tasks_by Task.name name (stop_task name s).1.store).foldl
        (start_step name) ((stop_task name s).1, "")).1 := by
    simp only [start_task]
    rw [hif]
  obtain ⟨hmem1, hname1⟩ := db_lookup_props hlook1
  refine ⟨?_, ?_, ?_⟩
  · rw [hst, start_fold_store, hlook1]
    rfl
  · rw [hst, start_fold_registry]
    show (stop_task name s).1.registry name = some h
    rw [stop_task_registry]
    exact hr
  · rw [hst]
    have hmemF : applyValues [("status", "stopped")] t ∈
        load_tasks_by Task.name name (stop_task name s).1.store :=
      List.mem_filter.mpr ⟨hmem1, by rw [hname1]; exact beq_self_eq_true name⟩
    have hset := start_fold_tick_set name
      (load_tasks_by Task.name name (stop_task name s).1.store)
      ((stop_task name s).1, "") (applyValues [("status", "stopped")] t) hmemF rfl
    rw [hname1] at hset
    exact hset

/-- Witness for C4 (amended) at a created-and-registered concrete state. -/
theorem c4_start_after_stop_amended_witness :
    ((db_lookup (start_task "t" (stop_task "t" ⟨true, mapUpdate emptyMap "t" (some 0),
        mapUpdate emptyMap "t" (some 0), [sampleTask], 1⟩).1).1.store "t").map Task.status
      = some "stopped") ∧
    (start_task "t" (stop_task "t" ⟨true, mapUpdate emptyMap "t" (some 0),
        mapUpdate emptyMap "t" (some 0), [sampleTask], 1⟩).1).1.registry "t" = some 0 ∧
    ((start_task "t" (stop_task "t" ⟨true, mapUpdate emptyMap "t" (some 0),
        mapUpdate emptyMap "t" (some 0), [sampleTask], 1⟩).1).1.tick "t").isSome = true :=
  c4_start_after_stop_amended ⟨true, mapUpdate emptyMap "t" (some 0),
    mapUpdate emptyMap "t" (some 0), [sampleTask], 1⟩ "t" 0 rfl (by decide) (by decide)

/-- C3 counterexample: with a Store holding A scheduled, B stopped and C
scheduled, starting the Coordinator from the not-running state leaves no
Job Registry entry for A (recovery discards the handles), although A is a
scheduled Store task, refuting the claimed Registry contents. -/
theorem c3_recovery_no_registry_counterexample :
    (start_scheduler ⟨false, emptyMap, emptyMap,
        [{sampleTask with name := "A"},
         {sampleTask with name := "B", status := "stopped"},
         {sampleTask with name := "C"}], 0⟩).1.registry "A" = none ∧
    ((db_lookup (start_scheduler ⟨false, emptyMap, emptyMap,
        [{sampleTask with name := "A"},
         {sampleTask with name := "B", status := "stopped"},
         {sampleTask with name := "C"}], 0⟩).1.store "A").map Task.status
      = some "scheduled") ∧
    ¬(((start_scheduler ⟨false, emptyMap, emptyMap,
        [{sampleTask with name := "A"},
         {sampleTask with name := "B", status := "stopped"},
         {sampleTask with name := "C"}], 0⟩).1.registry "A").isSome = true) := by
  exact ⟨by decide, by decide, by decide⟩

/-- C3 (amended): starting the Coordinator from the not-running state over
a Store with A and C scheduled and B stopped produces tick-engine
registrations for exactly A and C (none for B or any other name), but
creates no Job Registry entries at all: the handles computed during
recovery are discarded. -/
theorem c3_recovery_tick_only (rA rB rC : Task) :
    ((start_scheduler ⟨false, emptyMap, emptyMap,
        [{rA with name := "A", status := "scheduled"},
         {rB with name := "B", status := "stopped"},
         {rC with name := "C", status := "scheduled"}], 0⟩).1.tick "A").isSome = true ∧
    ((start_scheduler ⟨false, emptyMap, emptyMap,
        [{rA with name := "A", status := "scheduled"},
         {rB with name := "B", status := "stopped"},
         {rC with name := "C", status := "scheduled"}], 0⟩).1.tick "C").isSome = true ∧
    (start_scheduler ⟨false, emptyMap, emptyMap,
        [{rA with name := "A", status := "scheduled"},
         {rB with name := "B", status := "stopped"},
         {rC with name := "C", status := "scheduled"}], 0⟩).1.tick "B" = none ∧
    (∀ n : String, n ≠ "A" → n ≠ "C" →
      (start_scheduler ⟨false, emptyMap, emptyMap,
        [{rA with name := "A", status := "scheduled"},
         {rB with name := "B", status := "stopped"},
         {rC with name := "C", status := "scheduled"}], 0⟩).1.tick n = none) ∧
    (start_scheduler ⟨false, emptyMap, emptyMap,
        [{rA with name := "A", status := "scheduled"},
         {rB with name := "B", status := "stopped"},
         {rC with name := "C", status := "scheduled"}], 0⟩).1.registry = emptyMap ∧
    (start_scheduler ⟨false, emptyMap, emptyMap,
        [{rA with name := "A", status := "scheduled"},
         {rB with name := "B", status := "stopped"},
         {rC with name := "C", status := "scheduled"}], 0⟩).1.running = true := by
  have htick : (start_scheduler ⟨false, emptyMap, emptyMap,
      [{rA with name := "A", status := "scheduled"},
       {rB with name := "B", status := "stopped"},
       {rC with name := "C", status := "scheduled"}], 0⟩).1.tick
      = mapUpdate (mapUpdate emptyMap "A" (some 0)) "C" (some 1) := rfl
  refine ⟨?_, ?_, ?_, ?_, rfl, rfl⟩
  · rw [htick, mapUpdate_other _ _ _ _ (by decide), mapUpdate_self]
    rfl
  · rw [htick, mapUpdate_self]
    rfl
  · rw [htick, mapUpdate_other _ _ _ _ (by decide),
      mapUpdate_other _ _ _ _ (by decide)]
    rfl
  · intro n h1 h2
    rw [htick, mapUpdate_other _ _ _ _ h2, mapUpdate_other _ _ _ _ h1]
    rfl

/-- Witness for C3 (amended), instantiating the rows with the sample task
and the universally quantified other name with X. -/
theorem c3_recovery_tick_only_witness :
    ((start_scheduler ⟨false, emptyMap, emptyMap,
        [{sampleTask with name := "A", status := "scheduled"},
         {sampleTask with name := "B", status := "stopped"},
         {sampleTask with name := "C", status := "scheduled"}], 0⟩).1.tick "A").isSome
      = true ∧
    (start_scheduler ⟨false, emptyMap, emptyMap,
        [{sampleTask with name := "A", status := "scheduled"},
         {sampleTask with name := "B", status := "stopped"},
         {sampleTask with name := "C", status := "scheduled"}], 0⟩).1.tick "B" = none ∧
    (start_scheduler ⟨false, emptyMap, emptyMap,
        [{sampleTask with name := "A", status := "scheduled"},
         {sampleTask with name := "B", status := "stopped"},
         {sampleTask with name := "C", status := "scheduled"}], 0⟩).1.tick "X" = none ∧
    (start_scheduler ⟨false, emptyMap, emptyMap,
        [{sampleTask with name := "A", status := "scheduled"},
         {sampleTask with name := "B", status := "stopped"},
         {sampleTask with name := "C", status := "scheduled"}], 0⟩).1.registry = emptyMap :=
  ⟨(c3_recovery_tick_only sampleTask sampleTask sampleTask).1,
   (c3_recovery_tick_only sampleTask sampleTask sampleTask).2.2.1,
   (c3_recovery_tick_only sampleTask sampleTask sampleTask).2.2.2.1 "X"
     (by decide) (by decide),
   (c3_recovery_tick_only sampleTask sampleTask sampleTask).2.2.2.2.1⟩

/-- Transfer of the Registry-domain property along states that agree on
Registry and Store. -/
theorem regSubStore_of_eq {s s1 : State} (hr : s1.registry = s.registry)
    (hs : s1.store = s.store) (h : RegSubStore s) : RegSubStore s1 := by
  intro n hn
  rw [hr] at hn
  rw [hs]
  exact h n hn

theorem stop_scheduler_registry (s : State) :
    (stop_scheduler s).1.registry = s.registry := by
  unfold stop_scheduler
  split <;> rfl

theorem stop_scheduler_store (s : State) :
    (stop_scheduler s).1.store = s.store := by
  unfold stop_scheduler
  split <;> rfl

theorem update_task_preserves (name : String) (nv : List (String × String))
    (s : State) (hP : RegSubStore s) : RegSubStore (update_task name nv s).1 := by
  unfold update_task
  split
  · next st hu =>
    intro n hn
    rw [show (db_lookup st n).isSome = (db_lookup s.store n).isSome from
      db_update_ok_mem hu n]
    exact hP n hn
  · next e hu => exact hP

theorem start_task_preserves (name : String) (s : State) (hP : RegSubStore s) :
    RegSubStore (start_task name s).1 := by
  have hP0 : RegSubStore (if s.running = false then (start_scheduler s).1 else s) := by
    split
    · exact regSubStore_of_eq (start_scheduler_registry s) (start_scheduler_store s) hP
    · exact hP
  have hreg : (start_task name s).1.registry =
      (if s.running = false then (start_scheduler s).1 else s).registry := by
    simp only [start_task]
    rw [start_fold_registry]
  have hsto : (start_task name s).1.store =
      (if s.running = false then (start_scheduler s).1 else s).store := by
    simp only [start_task]
    rw [start_fold_store]
  exact regSubStore_of_eq hreg hsto hP0

/-- Store lookups of other names pass through the row removal. -/
theorem db_lookup_filter_other (l : List Task) (name m : String) (hm : m ≠ name) :
    db_lookup (l.filter (fun u => !(u.name == name))) m = db_lookup l m := by
  induction l with
  | nil => rfl
  | cons t l ih =>
    by_cases ht : (t.name == name) = true
    · have htm : (t.name == m) = false := by
        rw [eq_of_beq ht]
        exact beq_eq_false_iff_ne.mpr (Ne.symm hm)
      rw [List.filter_cons_of_neg (by simp [ht]), ih, db_lookup_cons_neg l htm]
    · rw [List.filter_cons_of_pos (by simp [ht])]
      by_cases htm : (t.name == m) = true
      · rw [db_lookup_cons_pos _ htm, db_lookup_cons_pos l htm]
      · rw [db_lookup_cons_neg _ (Bool.eq_false_iff.mpr htm),
          db_lookup_cons_neg l (Bool.eq_false_iff.mpr htm), ih]

theorem stop_task_preserves (name : String) (s : State) (hP : RegSubStore s) :
    RegSubStore (stop_task name s).1 := by
  intro n hn
  rw [stop_task_registry] at hn
  rw [stop_task_store_mem]
  exact hP n hn

theorem delete_task_preserves (name : String) (s : State) (hP : RegSubStore s) :
    RegSubStore (delete_task name s).1 := by
  have hP1 : RegSubStore (stop_task name s).1 := stop_task_preserves name s hP
  cases hdel : db_delete_task name (stop_task name s).1.store with
  | error e =>
    have hstate : (delete_task name s).1 = (stop_task name s).1 := by
      simp only [delete_task, delete_task_try, hdel]
    rw [hstate]
    exact hP1
  | ok st =>
    have hfilter : st =
        (stop_task name s).1.store.filter (fun u => !(u.name == name)) := by
      unfold db_delete_task at hdel
      cases hl : db_lookup (stop_task name s).1.store name with
      | none => rw [hl] at hdel; exact absurd hdel (by simp)
      | some t =>
        rw [hl] at hdel
        simp only [Except.ok.injEq] at hdel
        exact hdel.symm
    cases hreg : (stop_task name s).1.registry name with
    | none =>
      have hstate : (delete_task name s).1 =
          {(stop_task name s).1 with store := st} := by
        simp only [delete_task, delete_task_try, hdel, hreg]
      rw [hstate]
      intro n hn
      have hn2 : ((stop_task name s).1.registry n).isSome = true := hn
      show (db_lookup st n).isSome = true
      by_cases hnm : n = name
      · subst hnm
        rw [hreg] at hn2
        cases hn2
      · rw [hfilter, db_lookup_filter_other _ _ _ hnm]
        exact hP1 n hn2
    | some j =>
      have hstate : (delete_task name s).1 =
          {(stop_task name s).1 with
            store := st
            registry := mapUpdate (stop_task name s).1.registry name none} := by
        simp only [delete_task, delete_task_try, hdel, hreg]
      rw [hstate]
      intro n hn
      have hn2 : (mapUpdate (stop_task name s).1.registry name none n).isSome = true := hn
      show (db_lookup st n).isSome = true
      by_cases hnm : n = name
      · subst hnm
        rw [mapUpdate_self] at hn2
        cases hn2
      · rw [mapUpdate_other _ _ _ _ hnm] at hn2
        rw [hfilter, db_lookup_filter_other _ _ _ hnm]
        exact hP1 n hn2

theorem db_lookup_append_mono {l : List Task} {n : String} (l2 : List Task)
    (h : (db_lookup l n).isSome = true) :
    (db_lookup (l ++ l2) n).isSome = true := by
  induction l with
  | nil => cases h
  | cons t l ih =>
    by_cases ht : (t.name == n) = true
    · rw [List.cons_append, db_lookup_cons_pos _ ht]
      rfl
    · rw [List.cons_append, db_lookup_cons_neg _ (Bool.eq_false_iff.mpr ht)]
      rw [db_lookup_cons_neg l (Bool.eq_false_iff.mpr ht)] at h
      exact ih h

theorem db_lookup_append_self (l : List Task) (t : Task) :
    (db_lookup (l ++ [t]) t.name).isSome = true := by
  induction l with
  | nil =>
    rw [List.nil_append, db_lookup_cons_pos _ (beq_self_eq_true t.name)]
    rfl
  | cons a l ih =>
    by_cases ha : (a.name == t.name) = true
    · rw [List.cons_append, db_lookup_cons_pos _ ha]
      rfl
    · rw [List.cons_append, db_lookup_cons_neg _ (Bool.eq_false_iff.mpr ha)]
      exact ih

theorem create_task_preserves (inp : Except Unit Task) (s : State)
    (hP : RegSubStore s) : RegSubStore (create_task inp s).1 := by
  have hP0 : RegSubStore (if s.running = false then (start_scheduler s).1 else s) := by
    split
    · exact regSubStore_of_eq (start_scheduler_registry s) (start_scheduler_store s) hP
    · exact hP
  cases inp with
  | error u => exact hP0
  | ok task =>
    cases hcr : db_create_task task
        (if s.running = false then (start_scheduler s).1 else s).store with
    | error e =>
      have hstate : (create_task (Except.ok task) s).1 =
          (delete_task task.name
            (if s.running = false then (start_scheduler s).1 else s)).1 := by
        simp only [create_task, hcr]
      rw [hstate]
      exact delete_task_preserves task.name _ hP0
    | ok st =>
      have happ : st =
          (if s.running = false then (start_scheduler s).1 else s).store ++ [task] := by
        unfold db_create_task at hcr
        cases hl : db_lookup
            (if s.running = false then (start_scheduler s).1 else s).store task.name with
        | some t => rw [hl] at hcr; exact absurd hcr (by simp)
        | none =>
          rw [hl] at hcr
          simp only [Except.ok.injEq] at hcr
          exact hcr.symm
      have hregeq : (create_task (Except.ok task) s).1.registry =
          mapUpdate (if s.running = false then (start_scheduler s).1 else s).registry
            task.name
            (some (if s.running = false then (start_scheduler s).1 else s).nextHandle) := by
        simp only [create_task, hcr]
        rfl
      have hstoeq : (create_task (Except.ok task) s).1.store = st := by
        simp only [create_task, hcr]
        rfl
      intro n hn
      rw [hregeq] at hn
      rw [hstoeq]
      by_cases hnm : n = task.name
      · subst hnm
        rw [happ]
        exact db_lookup_append_self _ task
      · rw [mapUpdate_other _ _ _ _ hnm] at hn
        rw [happ]
        exact db_lookup_append_mono [task] (hP0 n hn)

/-- Every Facade and Coordinator operation preserves the Registry-domain
property. -/
theorem applyOp_preserves (op : Op) (s : State) (hP : RegSubStore s) :
    RegSubStore (applyOp op s) := by
  cases op with
  | opCreate inp => exact create_task_preserves inp s hP
  | opDelete name => exact delete_task_preserves name s hP
  | opRead name => exact hP
  | opReadAll => exact hP
  | opUpdate name nv => exact update_task_preserves name nv s hP
  | opStopTask name => exact stop_task_preserves name s hP
  | opStartTask name => exact start_task_preserves name s hP
  | opStartScheduler =>
    exact regSubStore_of_eq (start_scheduler_registry s) (start_scheduler_store s) hP
  | opStopScheduler =>
    exact regSubStore_of_eq (stop_scheduler_registry s) (stop_scheduler_store s) hP

/-- C2 counterexample: the state reached by create_task then stop_task has
a Job Registry entry for the name while its Store status is stopped (with
the Coordinator running), refuting the claimed iff between Registry entry,
scheduled status and the running flag. -/
theorem c2_registry_iff_counterexample :
    Reachable (applyOp (Op.opStopTask "t")
      (applyOp (Op.opCreate (Except.ok sampleTask)) initEmpty)) ∧
    (applyOp (Op.opStopTask "t")
      (applyOp (Op.opCreate (Except.ok sampleTask)) initEmpty)).registry "t"
      = some 0 ∧
    (applyOp (Op.opStopTask "t")
      (applyOp (Op.opCreate (Except.ok sampleTask)) initEmpty)).running = true ∧
    ((db_lookup (applyOp (Op.opStopTask "t")
      (applyOp (Op.opCreate (Except.ok sampleTask)) initEmpty)).store "t").map
        Task.status = some "stopped") ∧
    ¬(((applyOp (Op.opStopTask "t")
      (applyOp (Op.opCreate (Except.ok sampleTask)) initEmpty)).registry "t").isSome
        = true ↔
      (((db_lookup (applyOp (Op.opStopTask "t")
        (applyOp (Op.opCreate (Except.ok sampleTask)) initEmpty)).store "t").map
          Task.status = some "scheduled") ∧
       (applyOp (Op.opStopTask "t")
        (applyOp (Op.opCreate (Except.ok sampleTask)) initEmpty)).running = true)) := by
  refine ⟨⟨initEmpty, ⟨rfl, fun n => rfl, fun n => rfl⟩, ?_⟩,
    by decide, by decide, by decide, by decide⟩
  exact Relation.ReflTransGen.tail
    (Relation.ReflTransGen.single ⟨Op.opCreate (Except.ok sampleTask), rfl⟩)
    ⟨Op.opStopTask "t", rfl⟩

/-- C2 (amended): in every reachable state, a Job Registry entry for a name
implies that the name is present in the Store; entries are created only by
a successful create_task and removed only by delete_task, so neither the
scheduled status nor the running flag is implied by an entry, nor the
converse. -/
theorem c2_registry_subset_store (s : State) (h : Reachable s) : RegSubStore s := by
  obtain ⟨s0, h0, hsteps⟩ := h
  have hbase : RegSubStore s0 := by
    intro n hn
    rw [h0.2.1 n] at hn
    cases hn
  induction hsteps with
  | refl => exact hbase
  | tail hab hbc ih =>
    obtain ⟨op, rfl⟩ := hbc
    exact applyOp_preserves op _ ih

/-- Witness for C2 (amended) at the reachable state left by one successful
create_task from a fresh process. -/
theorem c2_registry_subset_store_witness :
    (db_lookup (applyOp (Op.opCreate (Except.ok sampleTask)) initEmpty).store
      "t").isSome = true := by
  have hre : Reachable (applyOp (Op.opCreate (Except.ok sampleTask)) initEmpty) :=
    ⟨initEmpty, ⟨rfl, fun n => rfl, fun n => rfl⟩,
      Relation.ReflTransGen.single ⟨Op.opCreate (Except.ok sampleTask), rfl⟩⟩
  exact c2_registry_subset_store _ hre "t" (by decide)

end ETL
